import Mathlib

/-!
# The Python binding of the JCL grammar

A shallow embedding of `bindings/python/tree_sitter_jcl/binding.cpp`:

```
typedef struct TSLanguage TSLanguage;
extern "C" TSLanguage *tree_sitter_jcl();
PYBIND11_MODULE(tree_sitter_jcl, m) {
    m.doc() = "Tree-sitter grammar for JCL";
    m.def("language", &tree_sitter_jcl, "Get the tree-sitter language for JCL");
}
```

The external symbol `tree_sitter_jcl` is only declared in the file, so it is a
parameter of every definition below: an arbitrary state-passing function over
an arbitrary state type `W` of the native side.  The pybind11 header is not
part of the sources either; the few operations of `pybind11::module_` that the
file uses are modelled as plain record updates.
-/

namespace TreeSitterJcl

/-- A value of type `TSLanguage *`.  `TSLanguage` is declared as an incomplete
struct, so the binding can neither look inside a handle nor build one; all it
can hold is the address. -/
structure TSLanguagePtr where
  addr : Nat
deriving DecidableEq, Repr

/-- The C function type `TSLanguage *()` of the declaration
`extern "C" TSLanguage *tree_sitter_jcl();`: no parameter, one handle as the
result.  The argument and the second component of the result are the state of
the native side before and after the call, which the function may read and
change at will. -/
abbrev LanguageFn (W : Type) : Type := W → TSLanguagePtr × W

/-- Modelled from the spec: the record pybind11 keeps for one registered
function (the header `pybind11/pybind11.h` is not among the sources): the name
it is registered under, the function pointer handed to `def`, and its
docstring. -/
structure function_record (W : Type) where
  name : String
  impl : LanguageFn W
  doc : String

/-- Modelled from the spec: the object behind `pybind11::module_` (the header
is not among the sources): the module name, the docstring reached through
`m.doc()`, and the functions registered through `m.def`, oldest first. -/
structure module_ (W : Type) where
  name : String
  doc : String
  defs : List (function_record W)

/-- Modelled from the spec: the module object `PYBIND11_MODULE(name, m)` hands
to its body as `m`: named `name`, without docstring, nothing registered. -/
def module_.create {W : Type} (name : String) : module_ W :=
  { name := name, doc := "", defs := [] }

/-- Modelled from the spec: the assignment `m.doc() = s`. -/
def module_.set_doc {W : Type} (m : module_ W) (s : String) : module_ W :=
  { m with doc := s }

/-- Modelled from the spec: `m.def(name, f, doc)` registers the function
pointer `f` under `name`, after the functions registered before. -/
def module_.def_ {W : Type} (m : module_ W) (name : String) (f : LanguageFn W)
    (doc : String) : module_ W :=
  { m with defs := m.defs ++ [{ name := name, impl := f, doc := doc }] }

/-- Modelled from the spec: attribute lookup on the module, the first function
registered under `name`, if any. -/
def module_.getattr {W : Type} (m : module_ W) (name : String) :
    Option (function_record W) :=
  m.defs.find? (fun r => decide (r.name = name))

/-- The body of `PYBIND11_MODULE(tree_sitter_jcl, m)`, lines 9 to 12 of
`binding.cpp`, as a function of the external symbol and of `m`. -/
def pybind11_init_tree_sitter_jcl {W : Type} (tree_sitter_jcl : LanguageFn W)
    (m : module_ W) : module_ W :=
  (m.set_doc "Tree-sitter grammar for JCL").def_ "language" tree_sitter_jcl
    "Get the tree-sitter language for JCL"

/-- The module initialiser that `PYBIND11_MODULE(tree_sitter_jcl, m)` defines:
it creates the module `tree_sitter_jcl` and runs the body on it. -/
def PyInit_tree_sitter_jcl {W : Type} (tree_sitter_jcl : LanguageFn W) : module_ W :=
  pybind11_init_tree_sitter_jcl tree_sitter_jcl (module_.create "tree_sitter_jcl")

/-- A process that has imported the module: the module object and the state of
the native side. -/
structure Process (W : Type) where
  module : module_ W
  native : W

/-- Modelled from the spec: the host calls the attribute `name` of the module
with no argument.  `none` when nothing is registered under `name`; otherwise
the registered function pointer is called on the native state, and its result
and the state it leaves are returned. -/
def Process.call {W : Type} (p : Process W) (name : String) :
    Option (TSLanguagePtr × Process W) :=
  match p.module.getattr name with
  | none => none
  | some r => some ((r.impl p.native).1, { p with native := (r.impl p.native).2 })

/-- The exposed entry point: `tree_sitter_jcl.language()`. -/
def language {W : Type} (p : Process W) : Option (TSLanguagePtr × Process W) :=
  p.call "language"

/-- The process right after `import tree_sitter_jcl`, the native side being in
state `w`. -/
def load {W : Type} (tree_sitter_jcl : LanguageFn W) (w : W) : Process W :=
  { module := PyInit_tree_sitter_jcl tree_sitter_jcl, native := w }

/-- The process after one more call of `language()`. -/
def afterCall {W : Type} (p : Process W) : Process W :=
  match language p with
  | none => p
  | some r => r.2

/-- The process after `n` calls of `language()` in a row. -/
def afterCalls {W : Type} : Nat → Process W → Process W
  | 0, p => p
  | n + 1, p => afterCalls n (afterCall p)

/-- The handle returned by the call of `language()` that follows `n` earlier
calls in the process loaded at native state `w`. -/
def nthHandle {W : Type} (tree_sitter_jcl : LanguageFn W) (w : W) (n : Nat) :
    Option TSLanguagePtr :=
  (language (afterCalls n (load tree_sitter_jcl w))).map Prod.fst

/-- An external function for concrete runs: it always returns the handle at
address 4096 and counts its calls in the native state. -/
def countingLanguage : LanguageFn Nat := fun n => ({ addr := 4096 }, n + 1)

/-- The handle the external function itself returns on its call number `n`
(counting from 0) when it is called again and again from native state `w`,
with no binding in between. -/
def nativeHandle {W : Type} (tree_sitter_jcl : LanguageFn W) (w : W) (n : Nat) :
    TSLanguagePtr :=
  (tree_sitter_jcl ((fun s => (tree_sitter_jcl s).2)^[n] w)).1

/-! ## Lemmas -/

/-- Attribute lookup on the initialised module: only `language` is found. -/
theorem getattr_init {W : Type} (ext : LanguageFn W) (name : String) :
    (PyInit_tree_sitter_jcl ext).getattr name =
      if name = "language" then
        some { name := "language", impl := ext, doc := "Get the tree-sitter language for JCL" }
      else none := by
  unfold PyInit_tree_sitter_jcl pybind11_init_tree_sitter_jcl module_.def_ module_.set_doc
    module_.create module_.getattr
  by_cases h : name = "language"
  · subst h; simp
  · have h2 : ¬ ("language" = name) := fun e => h e.symm
    simp [h, h2]

/-- One call of `language()` in a freshly loaded process. -/
theorem language_load {W : Type} (ext : LanguageFn W) (w : W) :
    language (load ext w) = some ((ext w).1, load ext (ext w).2) := by
  unfold language Process.call load
  simp [getattr_init]

/-- The process left by one call. -/
theorem afterCall_load {W : Type} (ext : LanguageFn W) (w : W) :
    afterCall (load ext w) = load ext (ext w).2 := by
  unfold afterCall
  rw [language_load]

/-- The process left by `n` calls: the module as loaded, the native state as
`n` calls of the external function leave it. -/
theorem afterCalls_load {W : Type} (ext : LanguageFn W) (n : Nat) (w : W) :
    afterCalls n (load ext w) = load ext ((fun s => (ext s).2)^[n] w) := by
  induction n generalizing w with
  | zero => rfl
  | succ k ih =>
    rw [afterCalls, afterCall_load, ih, Function.iterate_succ_apply]

/-- The handle of the call after `n` earlier ones is the one the external
function returns on its own call number `n`. -/
theorem nthHandle_eq_nativeHandle {W : Type} (ext : LanguageFn W) (w : W) (n : Nat) :
    nthHandle ext w n = some (nativeHandle ext w n) := by
  unfold nthHandle nativeHandle
  rw [afterCalls_load, language_load]
  rfl

/-! ## The claims -/

/-- C1: the function registered as `language` is the external function pointer
itself, and every call of `language()` (after any number `n` of earlier calls,
from any native state `w`) returns exactly the handle the external
`tree_sitter_jcl()` returns on the current native state, leaving the native
state as the external function left it and the module as it was. -/
theorem language_returns_external_handle {W : Type} (ext : LanguageFn W) (w : W) (n : Nat) :
    ((PyInit_tree_sitter_jcl ext).getattr "language").map function_record.impl = some ext ∧
    language (afterCalls n (load ext w)) =
      some ((ext (afterCalls n (load ext w)).native).1,
        { module := PyInit_tree_sitter_jcl ext,
          native := (ext (afterCalls n (load ext w)).native).2 }) := by
  refine ⟨by simp [getattr_init], ?_⟩
  rw [afterCalls_load, language_load]
  rfl

/-- C2: the initialised module is named `tree_sitter_jcl` and its table of
registered functions is the single entry `language`, whose function pointer is
the external symbol; looking up any other name, `parse`, `edit`, `query`,
`walk` or `Node` among them, finds nothing. -/
theorem module_registers_only_language {W : Type} (ext : LanguageFn W) :
    (PyInit_tree_sitter_jcl ext).name = "tree_sitter_jcl" ∧
    (PyInit_tree_sitter_jcl ext).defs =
      [{ name := "language", impl := ext, doc := "Get the tree-sitter language for JCL" }] ∧
    (PyInit_tree_sitter_jcl ext).defs.map function_record.name = ["language"] ∧
    (PyInit_tree_sitter_jcl ext).defs.map function_record.impl = [ext] ∧
    (∀ name : String, ((PyInit_tree_sitter_jcl ext).getattr name).isSome
      = decide (name = "language")) ∧
    (PyInit_tree_sitter_jcl ext).getattr "parse" = none ∧
    (PyInit_tree_sitter_jcl ext).getattr "edit" = none ∧
    (PyInit_tree_sitter_jcl ext).getattr "query" = none ∧
    (PyInit_tree_sitter_jcl ext).getattr "walk" = none ∧
    (PyInit_tree_sitter_jcl ext).getattr "Node" = none := by
  refine ⟨rfl, rfl, rfl, rfl, ?_, ?_, ?_, ?_, ?_, ?_⟩
  · intro name
    rw [getattr_init]
    by_cases h : name = "language" <;> simp [h]
  all_goals (rw [getattr_init]; simp)

/-- C3: when the external function returns the same handle on each of its
calls in a process, any two calls of `language()` in that process (the one
after `i` earlier calls and the one after `j`) both return a handle, and the
same one. -/
theorem language_handle_process_wide {W : Type} (ext : LanguageFn W) (w : W)
    (hext : ∀ a b : Nat, nativeHandle ext w a = nativeHandle ext w b) (i j : Nat) :
    nthHandle ext w i = nthHandle ext w j ∧ (nthHandle ext w i).isSome = true := by
  rw [nthHandle_eq_nativeHandle, nthHandle_eq_nativeHandle, hext i j]
  exact ⟨rfl, rfl⟩

/-- C3 at a concrete external function: it returns address 4096 on every call,
and so do the first and the fourth call of `language()`. -/
theorem language_handle_process_wide_witness :
    (∀ a b : Nat, nativeHandle countingLanguage 0 a = nativeHandle countingLanguage 0 b) ∧
    (nthHandle countingLanguage 0 0 = nthHandle countingLanguage 0 3 ∧
      (nthHandle countingLanguage 0 0).isSome = true) :=
  ⟨fun _ _ => rfl, language_handle_process_wide countingLanguage 0 (fun _ _ => rfl) 0 3⟩

/-- C8: after any number `n` of calls of `language()` the module is the one
that was loaded: its docstring is "Tree-sitter grammar for JCL" and its
registered functions are exactly `language`; all that has changed in the
process is the native state, by `n` runs of the external function. -/
theorem language_leaves_module_unchanged {W : Type} (ext : LanguageFn W) (w : W) (n : Nat) :
    (afterCalls n (load ext w)).module = (load ext w).module ∧
    (afterCalls n (load ext w)).module.doc = "Tree-sitter grammar for JCL" ∧
    (afterCalls n (load ext w)).module.defs.map function_record.name = ["language"] ∧
    (afterCalls n (load ext w)).native = (fun s => (ext s).2)^[n] w := by
  rw [afterCalls_load]
  exact ⟨rfl, rfl, rfl, rfl⟩

end TreeSitterJcl
